import Mathlib

/-!
Shallow embedding of the TalentScout Hiring Assistant chatbot
(`app/utils.py`, `app/prompts.py`, `app/answer_evaluator.py`,
`app/question_generator.py`, `app/main.py`) together with proofs about the
spec claims.

Python strings are modelled as Lean `String`s; the handful of string
operations the source uses (`in`, `strip`, `lower`, `split`, `replace`,
`int()`) are implemented here by structural recursion over `List Char` so
that every definition evaluates inside the kernel.  Python string methods
are Unicode-aware; the source only ever feeds them ASCII, so the ASCII
behaviour implemented here is the relevant one.

The two remote calls (`requests.post` against the Gemini endpoint) are
modelled by an explicit `RemoteOutcome` argument: either the text payload
of a successful response, or the `str(e)` message of the raised exception.
The environment variable `GEMINI_API_KEY` is modelled as an
`Option String` argument (`none` = unset).  The candidate-store file of
`utils.save_candidate_info` is modelled as an explicit `StoreFile` state
value: absent, present-but-unparsable, or present with a parsed record
list.
-/

namespace TalentScout

/-! ### String primitives (ASCII behaviour of the Python string methods) -/

/-- Characters removed by Python `str.strip()` (ASCII whitespace). -/
def isPySpace (c : Char) : Bool :=
  c = ' ' || c = '\t' || c = '\n' || c = '\r' || c = '\x0b' || c = '\x0c'

/-- Python `str.strip()` on a character list. -/
def strip (cs : List Char) : List Char :=
  ((cs.dropWhile isPySpace).reverse.dropWhile isPySpace).reverse

/-- Does the second list start with the first one? -/
def startsWithCh : List Char → List Char → Bool
  | [], _ => true
  | _ :: _, [] => false
  | p :: ps, c :: cs => p = c && startsWithCh ps cs

/-- Does `s` contain `pat` as a contiguous sublist? -/
def hasSub (s pat : List Char) : Bool :=
  match s with
  | [] => pat.isEmpty
  | _ :: rest => startsWithCh pat s || hasSub rest pat

/-- Python `a in b` on strings. -/
def pyIn (a b : String) : Bool := hasSub b.data a.data

/-- Python `str.lower()` (ASCII case folding). -/
def pyLower (s : String) : String := String.mk (s.data.map Char.toLower)

/-- Python `str.split(sep)` for a one-character separator. -/
def splitOnCh (sep : Char) : List Char → List (List Char)
  | [] => [[]]
  | c :: rest =>
    let r := splitOnCh sep rest
    if c = sep then [] :: r
    else
      match r with
      | h :: t => (c :: h) :: t
      | [] => [[c]]

/-- Does the character list end with a newline?  (Python `re` makes `$`
match just before one trailing newline as well as at the end.) -/
def endsWithNewline (cs : List Char) : Bool :=
  match cs.getLast? with
  | some c => c = '\n'
  | none => false

/-- Fuel-driven worker for `removeAll`; the fuel is the length of the
string, enough because every step consumes at least one character. -/
def removeAllAux (pat : List Char) : Nat → List Char → List Char
  | 0, s => s
  | _ + 1, [] => []
  | fuel + 1, c :: rest =>
    if startsWithCh pat (c :: rest) then
      removeAllAux pat fuel ((c :: rest).drop pat.length)
    else
      c :: removeAllAux pat fuel rest

/-- Python `s.replace(pat, "")` for a non-empty pattern. -/
def removeAll (pat s : List Char) : List Char := removeAllAux pat s.length s

/-- Decimal digits of a natural number, least significant first. -/
def natDigitsRev (fuel n : Nat) : List Char :=
  match fuel with
  | 0 => []
  | fuel + 1 =>
    if n < 10 then [Char.ofNat (48 + n)]
    else Char.ofNat (48 + n % 10) :: natDigitsRev fuel (n / 10)

/-- Python `str(n)` for a natural number. -/
def natToStr (n : Nat) : String := String.mk (natDigitsRev (n + 1) n).reverse

/-- Python `str(n)` for an integer. -/
def intToStr : Int → String
  | .ofNat m => natToStr m
  | .negSucc m => "-" ++ natToStr (m + 1)

/-- Join a list of strings with a separator. -/
def joinSep (sep : String) : List String → String
  | [] => ""
  | [x] => x
  | x :: xs => x ++ sep ++ joinSep sep xs

/-- Numeric value of a digit run (underscores are skipped, as `int()`
ignores them once the shape has been validated). -/
def digitsToNat (cs : List Char) : Nat :=
  cs.foldl (fun n c => if c.isDigit then n * 10 + (c.toNat - 48) else n) 0

/-- Shape check for the digit part of a Python `int()` literal: non-empty,
only digits and underscores, beginning and ending with a digit, and no two
consecutive underscores. -/
def intDigitsOk (cs : List Char) : Bool :=
  !cs.isEmpty &&
  cs.all (fun c => c.isDigit || c = '_') &&
  (match cs.head? with | some c => c.isDigit | none => false) &&
  (match cs.getLast? with | some c => c.isDigit | none => false) &&
  !(hasSub cs "__".data)

/-- Python `int(s)` (ASCII digits): optional sign after stripping
surrounding whitespace, then digits with optional underscore grouping;
`none` models the raised `ValueError`. -/
def pyInt (s : String) : Option Int :=
  match strip s.data with
  | '+' :: rest => if intDigitsOk rest then some (Int.ofNat (digitsToNat rest)) else none
  | '-' :: rest => if intDigitsOk rest then some (-(Int.ofNat (digitsToNat rest))) else none
  | cs => if intDigitsOk cs then some (Int.ofNat (digitsToNat cs)) else none

/-! ### `app/utils.py` -/

/-- ASCII version of the regex class `\w`. -/
def wordChar (c : Char) : Bool := c.isAlphanum || c = '_'

/-- ASCII version of the regex class `[\w\.-]`. -/
def emailChar (c : Char) : Bool := wordChar c || c = '.' || c = '-'

/-- Core of `re.match(r"^[\w\.-]+@[\w\.-]+\.\w+$", s)`: one `@`, a
non-empty local part over `[\w.-]`, and a domain of the form
`middle.tld` with non-empty `middle` over `[\w.-]` and non-empty `tld`
over `\w` (the greedy match puts the split at the last dot because the
tld cannot contain one). -/
def email_matches (s : String) : Bool :=
  match splitOnCh '@' s.data with
  | [localPart, domain] =>
    (!localPart.isEmpty && localPart.all emailChar) &&
    (let tld := (domain.reverse.takeWhile (fun c => c ≠ '.')).reverse
     decide (tld.length < domain.length) &&
     (let mid := domain.take (domain.length - tld.length - 1)
      !mid.isEmpty && mid.all emailChar && !tld.isEmpty && tld.all wordChar))
  | _ => false

/-- `utils.validate_email`: `re.match(r"^[\w\.-]+@[\w\.-]+\.\w+$", email)`;
the disjunct reflects that `$` also matches before one trailing newline. -/
def validate_email (email : String) : Bool :=
  email_matches email ||
  (endsWithNewline email.data && email_matches (String.mk email.data.dropLast))

/-- Core of `re.match(r"^\+?\d{7,15}$", s)`. -/
def phone_matches (s : String) : Bool :=
  let ds := match s.data with
    | '+' :: rest => rest
    | cs => cs
  ds.all Char.isDigit && decide (7 ≤ ds.length) && decide (ds.length ≤ 15)

/-- `utils.validate_phone`: `re.match(r"^\+?\d{7,15}$", phone)`. -/
def validate_phone (phone : String) : Bool :=
  phone_matches phone ||
  (endsWithNewline phone.data && phone_matches (String.mk phone.data.dropLast))

/-- `utils.sanitize_input`: `text.strip()`. -/
def sanitize_input (text : String) : String := String.mk (strip text.data)

/-- `utils.handle_fallback`. -/
def handle_fallback (field_label : String) : String :=
  "Input for " ++ field_label ++ " was not valid. Please try again."

/-- State of the candidate-store file: absent, present with content that
`json.load` cannot parse, or present and parsing to a list of records. -/
inductive StoreFile (α : Type) where
  | absent : StoreFile α
  | present : Option (List α) → StoreFile α
deriving DecidableEq

/-- Read step of `utils.save_candidate_info` (lines 25-32): a missing file
or unparsable content is treated as the empty collection. -/
def load_candidates {α : Type} : StoreFile α → List α
  | .absent => []
  | .present none => []
  | .present (some l) => l

/-- `utils.save_candidate_info`: read the store (lenient), append the new
record, rewrite the whole file. -/
def save_candidate_info {α : Type} (candidate : α) (file : StoreFile α) : StoreFile α :=
  .present (some (load_candidates file ++ [candidate]))

/-! ### `app/prompts.py` -/

/-- `prompts.info_prompt`. -/
def info_prompt (field_label : String) : String :=
  "Please provide your " ++ field_label ++ "."

/-- `prompts.fallback_prompt`. -/
def fallback_prompt (field_label : String) : String :=
  "Sorry, I didn\x27t understand your response for " ++ field_label ++
  ". Could you please rephrase or provide a valid input?"

/-- `prompts.question_prompt`. -/
def question_prompt (tech_stack : List String) : String :=
  "You are a technical interviewer. Given the following tech stack: " ++
  joinSep ", " tech_stack ++
  ", generate 3-5 specific technical interview questions. " ++
  "Questions should be clear, relevant, and test practical knowledge. " ++
  "Format each question as a numbered list starting with 1. " ++
  "Focus on actual technical questions, not domain categories."

/-! ### Remote-call model -/

/-- Outcome of the single `requests.post` against the Gemini endpoint:
either the text payload `data["candidates"][0]["content"]["parts"][0]["text"]`
of a successful 2xx response, or the `str(e)` message of the exception
raised (timeout, non-2xx from `raise_for_status`, malformed body, ...). -/
inductive RemoteOutcome where
  | success : String → RemoteOutcome
  | failure : String → RemoteOutcome
deriving DecidableEq

/-- The transient-failure signature test shared by both `except` blocks:
`"503" in str(e) or "429" in str(e) or "overloaded" in str(e) or "quota" in str(e)`. -/
def isTransientFailure (e : String) : Bool :=
  pyIn "503" e || pyIn "429" e || pyIn "overloaded" e || pyIn "quota" e

/-! ### `app/answer_evaluator.py` -/

/-- Result dictionary of the evaluator: `{"score": ..., "feedback": ...}`. -/
structure Evaluation where
  score : Int
  feedback : String
deriving DecidableEq

/-- Keyword list of the `"python"` branch of `get_fallback_evaluation`. -/
def python_keywords : List String :=
  ["def", "class", "import", "try", "except", "list", "tuple", "dict",
   "decorator", "generator"]

/-- Keyword list of the `"javascript"`/`"js"` branch. -/
def js_keywords : List String :=
  ["function", "const", "let", "var", "async", "await", "promise",
   "closure", "hoisting"]

/-- Keyword list of the `"react"` branch (note `useState`/`useEffect`
keep their capitals in the source although they are matched against a
lower-cased answer). -/
def react_keywords : List String :=
  ["component", "state", "props", "hook", "useState", "useEffect",
   "virtual", "dom"]

/-- Keyword list of the `"django"` branch. -/
def django_keywords : List String :=
  ["model", "view", "template", "orm", "migration", "signal",
   "authentication"]

/-- The running `score` of `get_fallback_evaluation` just before the final
clamp (answer_evaluator.py lines 88-112): base 5, plus 2 per matched
domain keyword, plus the two length bonuses, plus the code-marker bonus. -/
def fallback_raw_score (question answer : String) : Int :=
  let answer_lower := pyLower answer
  let question_lower := pyLower question
  5 +
  (if pyIn "python" question_lower then
     2 * ((python_keywords.countP fun k => pyIn k answer_lower : Nat) : Int)
   else if pyIn "javascript" question_lower || pyIn "js" question_lower then
     2 * ((js_keywords.countP fun k => pyIn k answer_lower : Nat) : Int)
   else if pyIn "react" question_lower then
     2 * ((react_keywords.countP fun k => pyIn k answer_lower : Nat) : Int)
   else if pyIn "django" question_lower then
     2 * ((django_keywords.countP fun k => pyIn k answer_lower : Nat) : Int)
   else 0) +
  (if answer.length > 100 then 1 else 0) +
  (if answer.length > 200 then 1 else 0) +
  (if pyIn "```" answer || pyIn "def " answer || pyIn "function " answer then 2 else 0)

/-- `answer_evaluator.get_fallback_evaluation`: clamp the raw score to
[0,10], then pick the canned feedback tier. -/
def get_fallback_evaluation (question answer : String) : Evaluation :=
  let score := min (max (fallback_raw_score question answer) 0) 10
  let feedback :=
    if score ≥ 8 then
      "Excellent answer! You demonstrate strong technical knowledge."
    else if score ≥ 6 then
      "Good answer! You show solid understanding of the concept."
    else if score ≥ 4 then
      "Fair attempt. Consider providing more specific examples and technical details."
    else
      "Try to provide more detailed technical explanations with examples."
  ⟨score, feedback⟩

/-- `re.search(r"(\d+)/10", content)`: leftmost position whose maximal
digit run is followed by `/10`; returns the run value and the characters
after the match. -/
def scanScore : List Char → Option (Nat × List Char)
  | [] => none
  | c :: rest =>
    if c.isDigit then
      let run := (c :: rest).takeWhile Char.isDigit
      let after := (c :: rest).dropWhile Char.isDigit
      if startsWithCh "/10".data after then
        some (digitsToNat run, after.drop 3)
      else scanScore rest
    else scanScore rest

/-- `answer_evaluator.parse_evaluation_response`. -/
def parse_evaluation_response (content : String) : Evaluation :=
  let m := scanScore content.data
  let score : Int :=
    match m with
    | some (n, _) => Int.ofNat n
    | none => 5
  let fb0 : List Char :=
    match m with
    | some (_, after) => strip after
    | none => content.data
  let fb1 := strip (removeAll "Feedback:".data fb0)
  let feedback := if fb1 = [] then "Good attempt! Keep practicing." else String.mk fb1
  ⟨min (max score 0) 10, feedback⟩

/-- `answer_evaluator.evaluate_answer`.  The source checks
`if not GEMINI_API_KEY` before the request, so both an unset and an
empty-string key short-circuit to the fallback evaluation; otherwise the
result is determined by the remote outcome. -/
def evaluate_answer (apiKey : Option String) (outcome : RemoteOutcome)
    (question answer : String) : Evaluation :=
  match apiKey with
  | none => get_fallback_evaluation question answer
  | some k =>
    if k = "" then get_fallback_evaluation question answer
    else
      match outcome with
      | .success content => parse_evaluation_response content
      | .failure e =>
        if isTransientFailure e then get_fallback_evaluation question answer
        else ⟨5, "Error evaluating answer: " ++ e ++ ". Please try again."⟩

/-! ### `app/question_generator.py` -/

/-- One line of the response text, as handled by the parsing loop of
`generate_questions` (lines 35-40): strip it, keep it only when it starts
with a digit or `-`, then strip the leading `0123456789.- ` marker
characters; an empty remainder is dropped. -/
def questionOfLine (l : List Char) : Option String :=
  let line := strip l
  match line with
  | [] => none
  | c :: _ =>
    if c.isDigit || c = '-' then
      let q := line.dropWhile (fun ch => "0123456789.- ".data.contains ch)
      if q = [] then none else some (String.mk q)
    else none

/-- The fixed `fallback_questions` catalog of `get_fallback_questions`,
in the insertion order the Python dict iterates in. -/
def fallback_catalog : List (String × List String) :=
  [("Python",
    ["Explain the difference between lists and tuples in Python.",
     "How do you handle exceptions in Python? Provide an example.",
     "What are decorators in Python? Give a practical example.",
     "Explain the concept of generators in Python.",
     "How does Python\x27s garbage collection work?"]),
   ("Django",
    ["What is Django ORM and how does it work?",
     "Explain Django\x27s MVT (Model-View-Template) architecture.",
     "How do you handle database migrations in Django?",
     "What are Django signals and when would you use them?",
     "Explain Django\x27s authentication system."]),
   ("JavaScript",
    ["Explain the difference between var, let, and const.",
     "What are closures in JavaScript? Provide an example.",
     "Explain the concept of promises and async/await.",
     "How does JavaScript handle hoisting?",
     "What is the event loop in JavaScript?"]),
   ("React",
    ["Explain the difference between state and props in React.",
     "What are React hooks? Give examples of useState and useEffect.",
     "Explain the concept of virtual DOM in React.",
     "How do you handle component lifecycle in React?",
     "What is the difference between controlled and uncontrolled components?"]),
   ("Node.js",
    ["Explain the event-driven nature of Node.js.",
     "What is the difference between require and import?",
     "How do you handle asynchronous operations in Node.js?",
     "Explain the concept of streams in Node.js.",
     "What are middleware functions in Express.js?"])]

/-- The five generic templated questions used for a technology with no
catalog match. -/
def generic_questions (tech : String) : List String :=
  ["Explain the core concepts of " ++ tech ++ ".",
   "What are the best practices for " ++ tech ++ "?",
   "How would you troubleshoot common issues in " ++ tech ++ "?",
   "What are the key features of " ++ tech ++ "?",
   "How would you optimize performance in " ++ tech ++ "?"]

/-- Body of the `for tech in tech_stack` loop of `get_fallback_questions`:
extend with the first catalog entry whose key matches by bidirectional
case-insensitive substring containment, or with the generic questions. -/
def fallback_step (questions : List String) (tech : String) : List String :=
  let tech_lower := pyLower tech
  match fallback_catalog.find?
      (fun kv => pyIn (pyLower kv.1) tech_lower || pyIn tech_lower (pyLower kv.1)) with
  | some kv => questions ++ kv.2
  | none => questions ++ generic_questions tech

/-- `question_generator.get_fallback_questions`. -/
def get_fallback_questions (tech_stack : List String) : List String :=
  (tech_stack.foldl fallback_step []).take 5

/-- `question_generator.generate_questions`.  Unlike `evaluate_answer`,
the source never checks `GEMINI_API_KEY` here: the key is only forwarded
as a request parameter, so the local control flow depends solely on the
remote outcome.  The `apiKey` argument is kept to mirror the
`os.getenv("GEMINI_API_KEY")` read. -/
def generate_questions (_apiKey : Option String) (outcome : RemoteOutcome)
    (tech_stack : List String) : List String :=
  match outcome with
  | .success content =>
    let questions := (splitOnCh '\n' content.data).filterMap questionOfLine
    (if questions = [] then [content] else questions).take 5
  | .failure e =>
    if isTransientFailure e then get_fallback_questions tech_stack
    else ["Error generating questions: " ++ e]

/-! ### `app/main.py` -/

/-- A value stored in the `st.session_state.candidate` dict: a plain
string, the parsed `experience` integer, or the split `tech_stack` list. -/
inductive FieldValue where
  | str : String → FieldValue
  | int : Int → FieldValue
  | vlist : List String → FieldValue
deriving DecidableEq

/-- Python `str()` of a stored field value.  (For the list case the
elements are shown with single-quote reprs; quote escaping inside the
elements is not modelled.) -/
def pyStrV : FieldValue → String
  | .str s => s
  | .int n => intToStr n
  | .vlist [] => "[]"
  | .vlist (x :: xs) => "[\x27" ++ joinSep "\x27, \x27" (x :: xs) ++ "\x27]"

/-- One entry of `st.session_state.evaluation_results` (main.py
lines 180-185). -/
structure EvaluationResult where
  question : String
  answer : String
  score : Int
  feedback : String
deriving DecidableEq

/-- The Streamlit session state driving the conversation (main.py
lines 22-37). -/
structure AppState where
  step : Nat
  candidate : List (String × FieldValue)
  chat_history : List (String × Bool)
  completed : Bool
  interview_questions : List String
  current_question_index : Nat
  interview_mode : Bool
  evaluation_results : List EvaluationResult
deriving DecidableEq

/-- `info_questions` of main.py: (session key, display label) pairs. -/
def info_questions : List (String × String) :=
  [("name", "Full Name"),
   ("email", "Email Address"),
   ("phone", "Phone Number"),
   ("experience", "Years of Experience"),
   ("position", "Desired Position"),
   ("location", "Current Location"),
   ("tech_stack", "Tech Stack (comma-separated, e.g., Python, Django, PostgreSQL)")]

/-- `exit_commands` of main.py. -/
def exit_commands : List String := ["exit", "quit", "bye"]

/-- `main.is_exit`: `text.strip().lower() in exit_commands`. -/
def is_exit (text : String) : Bool :=
  exit_commands.contains (pyLower (sanitize_input text))

/-- Python dict assignment `d[k] = v`: replace in place if the key
exists, else append. -/
def dictInsert (d : List (String × FieldValue)) (k : String) (v : FieldValue) :
    List (String × FieldValue) :=
  match d with
  | [] => [(k, v)]
  | (k2, v2) :: rest => if k2 = k then (k, v) :: rest else (k2, v2) :: dictInsert rest k v

/-- Validation-and-conversion of one info field (main.py lines 107-122):
`none` means the input is rejected for that field, `some v` is the value
stored into the candidate dict. -/
def parse_field (key : String) (input : String) : Option FieldValue :=
  if key = "email" then
    if validate_email input then some (.str input) else none
  else if key = "phone" then
    if validate_phone input then some (.str input) else none
  else if key = "experience" then
    match pyInt input with
    | some n => if 0 ≤ n then some (.int n) else none
    | none => none
  else if key = "tech_stack" then
    let techs := ((splitOnCh ',' input.data).map (fun t => String.mk (strip t))).filter
      (fun t => t ≠ "")
    if techs = [] then none else some (.vlist techs)
  else some (.str input)

/-- Observable effect of one script run, beyond the state update. -/
inductive StepOutput where
  | noInput : StepOutput
  | exited : StepOutput
  | invalidInput : String → StepOutput
  | accepted : FieldValue → StepOutput
  | answered : Int → String → StepOutput
  | emptyAnswer : StepOutput
  | finishedInterview : StepOutput
deriving DecidableEq

/-- Phase-1 body of `main` (lines 95-134): one run of the script while
collecting info, given the text-input content.  An empty widget value
does nothing; an exit keyword completes the session; otherwise the input
is sanitized and validated for the current field, an invalid value only
surfaces the fallback prompt (`st.stop()`), and a valid one is stored,
logged to the chat history, and advances `step`. -/
def processInfoInput (s : AppState) (raw : String) : AppState × StepOutput :=
  if raw = "" then (s, .noInput)
  else if is_exit raw then ({ s with completed := true }, .exited)
  else
    let input := sanitize_input raw
    let kl := info_questions.getD s.step ("", "")
    match parse_field kl.1 input with
    | none => (s, .invalidInput (fallback_prompt kl.2))
    | some v =>
      ({ s with
          candidate := dictInsert s.candidate kl.1 v,
          chat_history := s.chat_history ++
            [(info_prompt kl.2, false), (pyStrV v, true)],
          step := s.step + 1 },
       .accepted v)

/-- Phase-3 body of `main` (lines 164-201): one run of the script in
interview mode, given the answer text-area content and the modelled
remote arguments for the `evaluate_answer` call.  A non-empty answer is
evaluated and recorded; a blank one only shows an error; once the index
reaches the question count the session completes. -/
def processAnswer (s : AppState) (user_answer : String) (apiKey : Option String)
    (outcome : RemoteOutcome) : AppState × StepOutput :=
  if s.current_question_index < s.interview_questions.length then
    let current_question := s.interview_questions.getD s.current_question_index ""
    let questionPrompt :=
      "**Question " ++ natToStr (s.current_question_index + 1) ++ ":** " ++ current_question
    if String.mk (strip user_answer.data) ≠ "" then
      let evaluation := evaluate_answer apiKey outcome current_question user_answer
      ({ s with
          evaluation_results := s.evaluation_results ++
            [⟨current_question, user_answer, evaluation.score, evaluation.feedback⟩],
          chat_history := s.chat_history ++
            [(questionPrompt, false),
             (user_answer, true),
             ("**Score: " ++ intToStr evaluation.score ++ "/10**", false),
             ("**Feedback:** " ++ evaluation.feedback, false)],
          current_question_index := s.current_question_index + 1 },
       .answered evaluation.score evaluation.feedback)
    else (s, .emptyAnswer)
  else ({ s with completed := true }, .finishedInterview)

/-! ### Helper lemmas -/

/-- The raw fallback score never drops below its base of 5: every rule
only adds points. -/
theorem fallback_raw_score_ge_five (question answer : String) :
    5 ≤ fallback_raw_score question answer := by
  unfold fallback_raw_score
  dsimp only
  split_ifs <;> omega

/-- Every catalog entry carries exactly five questions. -/
theorem fallback_catalog_entry_length :
    ∀ kv ∈ fallback_catalog, kv.2.length = 5 := by decide

/-- One loop iteration of `get_fallback_questions` adds exactly five
questions, from the catalog or from the generic template. -/
theorem fallback_step_length (acc : List String) (t : String) :
    (fallback_step acc t).length = acc.length + 5 := by
  unfold fallback_step
  dsimp only
  split
  · next kv heq =>
    have h5 := fallback_catalog_entry_length kv (List.mem_of_find?_eq_some heq)
    simp [h5]
  · next => simp [generic_questions]

/-- Length of the accumulated question list over the whole loop. -/
theorem fold_fallback_length (ts : List String) : ∀ acc : List String,
    (ts.foldl fallback_step acc).length = acc.length + 5 * ts.length := by
  induction ts with
  | nil => intro acc; simp
  | cons t rest ih =>
    intro acc
    rw [List.foldl_cons, ih, fallback_step_length]
    simp only [List.length_cons]
    ring

/-- `get_fallback_questions` returns `min 5 (5 * n)` questions for an
`n`-technology stack. -/
theorem get_fallback_questions_length (ts : List String) :
    (get_fallback_questions ts).length = min 5 (5 * ts.length) := by
  unfold get_fallback_questions
  rw [List.length_take, fold_fallback_length]
  simp

/-- In the `collecting_info` phase, a non-empty, non-exit input that
fails the current field check leaves the state untouched and only
surfaces the fallback prompt (main.py lines 124-127: `st.stop()`). -/
theorem info_invalid_step (s : AppState) (i : String)
    (h1 : i ≠ "") (h2 : is_exit i = false)
    (h3 : parse_field (info_questions.getD s.step ("", "")).1 (sanitize_input i) = none) :
    processInfoInput s i =
      (s, .invalidInput (fallback_prompt (info_questions.getD s.step ("", "")).2)) := by
  unfold processInfoInput
  rw [if_neg h1, if_neg (by simp [h2] : ¬ is_exit i = true)]
  dsimp only
  rw [h3]

/-- Folding any number of invalid inputs through the phase-1 handler
leaves the state fixed. -/
theorem info_invalid_fold (s : AppState) : ∀ inputs : List String,
    (∀ i ∈ inputs, i ≠ "" ∧ is_exit i = false ∧
      parse_field (info_questions.getD s.step ("", "")).1 (sanitize_input i) = none) →
    inputs.foldl (fun st i => (processInfoInput st i).1) s = s := by
  intro inputs
  induction inputs with
  | nil => intro _; rfl
  | cons i rest ih =>
    intro h
    have hi := h i (List.mem_cons_self i rest)
    rw [List.foldl_cons, info_invalid_step s i hi.1 hi.2.1 hi.2.2]
    exact ih fun j hj => h j (List.mem_cons_of_mem i hj)

/-- Prepending records to a store already holding `acc`. -/
theorem save_foldl {α : Type} (records : List α) : ∀ acc : List α,
    records.foldl (fun file c => save_candidate_info c file)
        (StoreFile.present (some acc)) =
      StoreFile.present (some (acc ++ records)) := by
  induction records with
  | nil => intro acc; simp
  | cons c rest ih =>
    intro acc
    rw [List.foldl_cons]
    show rest.foldl _ (StoreFile.present (some (acc ++ [c]))) = _
    rw [ih]
    simp

/-! ### Claim theorems -/

/-- Claim C1, counterexample: with the credential unset and the remote
call failing without a transient signature (the request is still
attempted, since `generate_questions` never checks the key), the result
is the error-shaped singleton, not the fallback catalog — refuting
"neither operation ever returns an error-shaped result when the
credential is missing". -/
theorem c1_missing_key_error_shaped :
    generate_questions none (.failure "403 Client Error: Forbidden") ["Python"] =
      ["Error generating questions: 403 Client Error: Forbidden"] ∧
    generate_questions none (.failure "403 Client Error: Forbidden") ["Python"] ≠
      get_fallback_questions ["Python"] := by decide

/-- Claim C1, amended: with the credential missing, `evaluate_answer`
always returns the fallback evaluation (it checks the key before the
request), while `generate_questions` still attempts the remote call and
returns the fallback question set only for a transient failure
signature, otherwise an error-shaped single-element list. -/
theorem c1_missing_key_behaviour :
    (∀ (outcome : RemoteOutcome) (question answer : String),
        evaluate_answer none outcome question answer =
          get_fallback_evaluation question answer) ∧
    (∀ (tech_stack : List String) (e : String),
        generate_questions none (.failure e) tech_stack =
          if isTransientFailure e then get_fallback_questions tech_stack
          else ["Error generating questions: " ++ e]) :=
  ⟨fun _ _ _ => rfl, fun _ _ => rfl⟩

/-- A session in the interview phase, one question pending. -/
def c2_interview_state : AppState :=
  { step := 7, candidate := [], chat_history := [], completed := false,
    interview_questions := ["Explain the difference between lists and tuples in Python."],
    current_question_index := 0, interview_mode := true, evaluation_results := [] }

/-- A session collecting the phone number (field index 2). -/
def c2_phone_state : AppState :=
  { step := 2, candidate := [("name", .str "Ann"), ("email", .str "ann@mail.com")],
    chat_history := [], completed := false, interview_questions := [],
    current_question_index := 0, interview_mode := false, evaluation_results := [] }

/-- Claim C2: `"exit"` during phone collection does complete the session
with zero results, but the same exit keyword submitted as an interview
answer is NOT honoured — the code evaluates it as an answer, records an
EvaluationResult, and stays in the interview, contradicting both the
claim and the welcome text "Type \x27exit\x27 anytime to leave." printed
by main.py itself. -/
theorem c2_exit_keyword_divergence :
    is_exit "exit" = true ∧
    (processInfoInput c2_phone_state "exit").1.completed = true ∧
    (processInfoInput c2_phone_state "exit").1.evaluation_results = [] ∧
    (processAnswer c2_interview_state "exit" none (.failure "network error")).1.completed = false ∧
    (processAnswer c2_interview_state "exit" none
        (.failure "network error")).1.evaluation_results.length = 1 := by decide

/-- Claim C3, counterexample: for the empty tech stack under a transient
failure, `generate_questions` returns zero items, refuting "at least 1"
as universally stated. -/
theorem c3_empty_stack_zero_questions :
    generate_questions (some "key") (.failure "503 Service Unavailable") [] =
      ([] : List String) := by decide

/-- Claim C3, amended: `generate_questions` never returns more than 5
items; it returns at least 1 whenever the tech stack is non-empty; and
when no line of a successful response parses as a numbered-or-dashed
question the whole raw text comes back as a single-element list. -/
theorem c3_question_count_bounds (apiKey : Option String) (outcome : RemoteOutcome)
    (tech_stack : List String) :
    (generate_questions apiKey outcome tech_stack).length ≤ 5 ∧
    (tech_stack ≠ [] → 1 ≤ (generate_questions apiKey outcome tech_stack).length) ∧
    (∀ content, outcome = RemoteOutcome.success content →
      (splitOnCh '\n' content.data).filterMap questionOfLine = [] →
      generate_questions apiKey outcome tech_stack = [content]) := by
  refine ⟨?_, ?_, ?_⟩
  · cases outcome with
    | success content =>
      unfold generate_questions
      dsimp only
      rw [List.length_take]
      omega
    | failure e =>
      unfold generate_questions
      dsimp only
      split_ifs with h
      · rw [get_fallback_questions_length]; omega
      · simp
  · intro hne
    cases outcome with
    | success content =>
      unfold generate_questions
      dsimp only
      by_cases hq : (splitOnCh '\n' content.data).filterMap questionOfLine = []
      · simp [hq]
      · rw [if_neg hq, List.length_take]
        have h1 : 0 < ((splitOnCh '\n' content.data).filterMap questionOfLine).length :=
          List.length_pos.mpr hq
        omega
    | failure e =>
      unfold generate_questions
      dsimp only
      split_ifs with h
      · rw [get_fallback_questions_length]
        have h1 : 0 < tech_stack.length := List.length_pos.mpr hne
        omega
      · simp
  · intro content hc hparse
    subst hc
    unfold generate_questions
    dsimp only
    rw [if_pos hparse]
    rfl

/-- Witness for the amended C3 bounds at concrete inputs. -/
theorem c3_question_count_bounds_witness :
    1 ≤ (generate_questions (some "key") (.failure "503 Service Unavailable")
        ["Python"]).length ∧
    generate_questions (some "key") (.success "plain text") ["Python"] = ["plain text"] :=
  ⟨(c3_question_count_bounds (some "key") (.failure "503 Service Unavailable")
      ["Python"]).2.1 (by decide),
   (c3_question_count_bounds (some "key") (.success "plain text") ["Python"]).2.2
      "plain text" rfl (by decide)⟩

/-- Claim C4: the fallback evaluation score is always clamped into
[0, 10]. -/
theorem c4_fallback_score_in_range (question answer : String) :
    0 ≤ (get_fallback_evaluation question answer).score ∧
    (get_fallback_evaluation question answer).score ≤ 10 := by
  unfold get_fallback_evaluation
  dsimp only
  omega

/-- The answer of the C5 scenario. -/
def c5_answer : String :=
  "I use def and class with try/except to handle errors in a list comprehension"

/-- For a question mentioning python, the raw score is the python-keyword
sum plus the length and code bonuses. -/
theorem python_branch_raw (question answer : String)
    (h : pyIn "python" (pyLower question) = true) :
    fallback_raw_score question answer =
      5 + 2 * ((python_keywords.countP fun k => pyIn k (pyLower answer) : Nat) : Int) +
      (if answer.length > 100 then 1 else 0) +
      (if answer.length > 200 then 1 else 0) +
      (if pyIn "```" answer || pyIn "def " answer || pyIn "function " answer then 2
       else 0) := by
  unfold fallback_raw_score
  dsimp only
  rw [if_pos h]

/-- Claim C5: for the scenario answer given to any question whose
lower-cased text contains "python", at least 4 domain keywords hit, the
pre-clamp score is at least 10, the clamped score is exactly 10, and the
feedback is the score-at-least-8 tier text. -/
theorem c5_python_scenario (question : String)
    (h : pyIn "python" (pyLower question) = true) :
    4 ≤ python_keywords.countP (fun k => pyIn k (pyLower c5_answer)) ∧
    10 ≤ fallback_raw_score question c5_answer ∧
    (get_fallback_evaluation question c5_answer).score = 10 ∧
    (get_fallback_evaluation question c5_answer).feedback =
      "Excellent answer! You demonstrate strong technical knowledge." := by
  have hraw : fallback_raw_score question c5_answer = 17 := by
    rw [python_branch_raw question c5_answer h]
    decide
  refine ⟨by decide, by rw [hraw]; decide, ?_, ?_⟩
  · unfold get_fallback_evaluation
    dsimp only
    rw [hraw]
    decide
  · unfold get_fallback_evaluation
    dsimp only
    rw [hraw]
    decide

/-- Witness for C5 at the concrete question "What is Python?". -/
theorem c5_python_scenario_witness :
    pyIn "python" (pyLower "What is Python?") = true ∧
    (get_fallback_evaluation "What is Python?" c5_answer).score = 10 :=
  ⟨by decide, (c5_python_scenario "What is Python?" (by decide)).2.2.1⟩

/-- Claim C6: for tech stack ["Python", "Django"] under a transient
failure, the result is exactly the five Python catalog questions — the
Django entry is matched too, but the trailing truncation to 5 keeps only
the first matching entry. -/
theorem c6_first_catalog_entry_wins :
    generate_questions (some "key") (.failure "429 Too Many Requests")
        ["Python", "Django"] =
      ["Explain the difference between lists and tuples in Python.",
       "How do you handle exceptions in Python? Provide an example.",
       "What are decorators in Python? Give a practical example.",
       "Explain the concept of generators in Python.",
       "How does Python\x27s garbage collection work?"] := by decide

/-- Claim C7: appending N records one at a time to an initially absent
store yields a store that reads back as exactly those N records, in
append order. -/
theorem c7_store_roundtrip {α : Type} (records : List α) :
    load_candidates
        (records.foldl (fun file c => save_candidate_info c file) StoreFile.absent) =
      records := by
  cases records with
  | nil => rfl
  | cons c rest =>
    rw [List.foldl_cons]
    show load_candidates
        (rest.foldl (fun file c => save_candidate_info c file)
          (StoreFile.present (some ([] ++ [c])))) = c :: rest
    rw [save_foldl]
    simp [load_candidates]

/-- Claim C8: the fallback scorer is a deterministic function of the
(question, answer) pair — equal inputs yield equal (score, feedback). -/
theorem c8_fallback_deterministic (q1 a1 q2 a2 : String)
    (hq : q1 = q2) (ha : a1 = a2) :
    get_fallback_evaluation q1 a1 = get_fallback_evaluation q2 a2 := by
  rw [hq, ha]

/-- Witness for C8 at a concrete pair. -/
theorem c8_fallback_deterministic_witness :
    ("Explain Python decorators." : String) = "Explain Python decorators." ∧
    get_fallback_evaluation "Explain Python decorators." "I would use def" =
      get_fallback_evaluation "Explain Python decorators." "I would use def" :=
  ⟨rfl, c8_fallback_deterministic "Explain Python decorators." "I would use def"
    "Explain Python decorators." "I would use def" rfl rfl⟩

/-- Claim C9: in the collecting_info phase, any sequence of invalid
inputs (non-empty, non-exit, failing the current field check) leaves the
whole session state unchanged, and each such attempt surfaces exactly
the fallback re-prompt. -/
theorem c9_invalid_input_frame (s : AppState) (inputs : List String)
    (_hphase : s.interview_mode = false ∧ s.step < info_questions.length)
    (hinv : ∀ i ∈ inputs, i ≠ "" ∧ is_exit i = false ∧
      parse_field (info_questions.getD s.step ("", "")).1 (sanitize_input i) = none) :
    inputs.foldl (fun st i => (processInfoInput st i).1) s = s ∧
    ∀ i ∈ inputs, processInfoInput s i =
      (s, .invalidInput (fallback_prompt (info_questions.getD s.step ("", "")).2)) := by
  refine ⟨info_invalid_fold s inputs hinv, ?_⟩
  intro i hi
  have h := hinv i hi
  exact info_invalid_step s i h.1 h.2.1 h.2.2

/-- A session collecting the email field, as witness state for C9. -/
def c9_state : AppState :=
  { step := 1, candidate := [("name", .str "Ann")], chat_history := [], completed := false,
    interview_questions := [], current_question_index := 0, interview_mode := false,
    evaluation_results := [] }

/-- Witness for C9: two malformed email attempts leave the state fixed. -/
theorem c9_invalid_input_frame_witness :
    ["not-an-email", "foo@bar"].foldl (fun st i => (processInfoInput st i).1) c9_state =
      c9_state :=
  (c9_invalid_input_frame c9_state ["not-an-email", "foo@bar"]
    ⟨by decide, by decide⟩ (by decide)).1

/-- Claim C10: the fallback score never drops below 5 (the base score
with only additive rules), so the lowest feedback tier is unreachable
through the fallback scorer. -/
theorem c10_score_floor (question answer : String) :
    5 ≤ (get_fallback_evaluation question answer).score ∧
    (get_fallback_evaluation question answer).feedback ≠
      "Try to provide more detailed technical explanations with examples." := by
  have h := fallback_raw_score_ge_five question answer
  unfold get_fallback_evaluation
  dsimp only
  constructor
  · omega
  · split_ifs with h8 h6 h4
    · decide
    · decide
    · decide
    · omega

end TalentScout
